import Mathlib

/-!
Shallow embedding of `python_apps/airtime_analyzer/airtime_analyzer/cloud_storage_uploader.py`
(class `CloudStorageUploader`): configuration resolution (`__init__`), the
`enabled` query and the `upload_obj` method, together with the filesystem/string
primitives the method calls (`os.path.basename`, `os.path.splitext`,
`str.replace`, Python slicing `[-2:]`) and the canonical string form of
`uuid.uuid4()`.

Side effects of `upload_obj` (object-store calls, file stat/delete, logging)
are made explicit: the method is modelled as a function of an environment
describing the outcome of each external operation, returning the Python
result (`Except`: a raised exception or the returned metadata dict) together
with the ordered trace of external events it performed.
-/

namespace CloudStorage

/-- Model of `os.path.basename`: the part of the path after the last `/`
(posixpath semantics, as on the Linux hosts this code runs on). -/
def basename (s : String) : String :=
  String.mk ((s.data.reverse.takeWhile (fun c => c ≠ '/')).reverse)

/-- Model of `os.path.splitext` (posixpath): split off the extension at the last dot,
provided that dot lies after the last `/` and is preceded (within the base
name) by at least one non-dot character; otherwise the extension is empty.
Returns `(root, extension)`, the extension including its leading dot. -/
def splitext (s : String) : String × String :=
  let l := s.data
  let base := (l.reverse.takeWhile (fun c => c ≠ '/')).reverse
  let dir := l.take (l.length - base.length)
  let dots := base.takeWhile (fun c => c = '.')
  let rest := base.drop dots.length
  if '.' ∈ rest then
    let tail := (rest.reverse.takeWhile (fun c => c ≠ '.')).reverse
    let root := rest.take (rest.length - (tail.length + 1))
    (String.mk (dir ++ dots ++ root), String.mk ('.' :: tail))
  else (s, String.mk [])

/-- Model of `file_name.replace(" ", "-")`: replace every space character by a hyphen. -/
def replaceSpaces (s : String) : String :=
  String.mk (s.data.map (fun c => if c = ' ' then '-' else c))

/-- Python slicing `s[-2:]`: the last two characters (the whole string when
it is shorter than two characters). -/
def sliceLast2 (s : String) : String :=
  String.mk (s.data.drop (s.data.length - 2))

/-- Lower-case hexadecimal digit of a value below 16 (as produced by
Python's `%x` formatting inside `str(uuid.uuid4())`). -/
def hexDigit (n : Nat) : Char :=
  if n < 10 then Char.ofNat (48 + n) else Char.ofNat (87 + n)

/-- One byte rendered as two lower-case hexadecimal digits (`%02x`). -/
def byteHex (b : Nat) : List Char :=
  [hexDigit (b / 16 % 16), hexDigit (b % 16)]

/-- A byte sequence rendered as a run of lower-case hexadecimal digits. -/
def bytesHex : List Nat → List Char
  | [] => []
  | b :: rest => byteHex b ++ bytesHex rest

/-- Model of `str(uuid.uuid4())`: the 16 random bytes of the UUID rendered as
lower-case hexadecimal in the canonical 8-4-4-4-12 hyphenated grouping.
The bytes are the entropy drawn by `uuid4`; the version/variant bit fiddling
does not change the shape of the string and is left to the byte argument. -/
def uuid4Str (bs : List Nat) : String :=
  String.mk (bytesHex (bs.take 4) ++ '-' ::
    (bytesHex ((bs.drop 4).take 2) ++ '-' ::
      (bytesHex ((bs.drop 6).take 2) ++ '-' ::
        (bytesHex ((bs.drop 8).take 2) ++ '-' :: bytesHex (bs.drop 10)))))

/-- Module-level constant `STORAGE_BACKEND_FILE = "file"`. -/
def STORAGE_BACKEND_FILE : String := "file"

/-- The state built by `CloudStorageUploader.__init__`. -/
structure Uploader where
  storage_backend : String
  host : String
  bucket : String
  api_key : String
  api_key_secret : String
  deriving DecidableEq, Repr

/-- A `ConfigParser`-style error raised by `config.get` on a missing
section/option pair (the code lets it propagate). -/
inductive ConfigErr where
  | missing (sect opt : String)
  deriving DecidableEq, Repr

/-- The configuration source: section name and option name to optional value. -/
def Config := String → String → Option String

/-- Model of `config.get(section, option)`: the stored value, or a raised error
naming the missing section and option. -/
def configGet (c : Config) (s o : String) : Except ConfigErr String :=
  match c s o with
  | some v => .ok v
  | none => .error (.missing s o)

/-- Model of `CloudStorageUploader.__init__(config)`: read the current backend
selector; for the `"file"` backend leave all connection fields empty,
otherwise read the four connection fields from the backend's own section. -/
def mkUploader (config : Config) : Except ConfigErr Uploader :=
  match configGet config "current_backend" "storage_backend" with
  | .error e => .error e
  | .ok sb =>
    if sb = STORAGE_BACKEND_FILE then .ok ⟨sb, "", "", "", ""⟩
    else
      match configGet config sb "host" with
      | .error e => .error e
      | .ok h =>
        match configGet config sb "bucket" with
        | .error e => .error e
        | .ok b =>
          match configGet config sb "api_key" with
          | .error e => .error e
          | .ok k =>
            match configGet config sb "api_key_secret" with
            | .error e => .error e
            | .ok ks => .ok ⟨sb, h, b, k, ks⟩

/-- Model of `CloudStorageUploader.enabled`. -/
def Uploader.enabled (u : Uploader) : Bool :=
  if u.storage_backend = "file" then false else true

/-- A Python value stored in the metadata dictionary (the keys this code
reads or writes hold either strings or integers). -/
inductive Val where
  | s (v : String)
  | n (v : Nat)
  deriving DecidableEq, Repr

/-- Formatting of a metadata value by `"%s"` (Python `str()`). -/
def Val.fmt : Val → String
  | .s v => v
  | .n v => toString v

/-- The metadata dictionary, as an association list with the first binding
of a key authoritative (Python dicts have unique keys). -/
def Meta := List (String × Val)

/-- Dictionary lookup `md[k]`: the value of the first binding of `k`, if any
(`md[k]` raises `KeyError` exactly when this is `none`). -/
def Meta.lookup : Meta → String → Option Val
  | [], _ => none
  | (k', v) :: rest, k => if k' = k then some v else Meta.lookup rest k

/-- Dictionary assignment `md[k] = v`: overwrite the binding of `k` in place when present,
otherwise append a new binding (Python dict assignment). -/
def Meta.set : Meta → String → Val → Meta
  | [], k, v => [(k, v)]
  | (k', v') :: rest, k, v =>
    if k' = k then (k, v) :: rest else (k', v') :: Meta.set rest k v

/-- One external operation performed by `upload_obj`, in order:
the `S3Connection(...)` client construction, `conn.get_bucket`, the object
write (`Key` with its `filename` metadata entry and
`set_contents_from_filename`), `os.path.getsize`, `os.remove`, and the
`logging.info` call of the deletion `except` branch. -/
inductive Ev where
  | connect (api_key api_key_secret host : String)
  | getBucket (bucket : String)
  | putObject (key filenameMeta path : String)
  | getSize (path : String)
  | remove (path : String)
  | logInfo (msg : String)
  deriving DecidableEq, Repr

/-- Outcomes of the external operations for one call: whether each
object-store step succeeds, the size `os.path.getsize` reports (`none` =
raises), and whether `os.remove` succeeds (`false` = raises `OSError`). -/
structure Env where
  connectOk : Bool
  getBucketOk : Bool
  putOk : Bool
  size : Option Nat
  removeOk : Bool
  deriving DecidableEq, Repr

/-- The store step at which a call failed (carried by the propagated
store exception so the error names its underlying cause). -/
inductive StoreStage where
  | connect
  | getBucket
  | putObject
  deriving DecidableEq, Repr

/-- An exception propagating out of `upload_obj`: the `KeyError` of
`metadata['file_prefix']` (the spec's `InvalidRequestError`), a store
client error (the spec's `UploadError`, wrapping the failed stage as its
underlying cause), or an `OSError` from `os.path.getsize`. -/
inductive Err where
  | keyError (key : String)
  | uploadError (cause : StoreStage)
  | osError (op : String)
  deriving DecidableEq, Repr

/-- The resource-naming computation of `upload_obj` (its lines from
`file_base_name = ...` to `resource_id = "%s/%s/%s_%s%s" % ...`), as a
function of the path, the `file_prefix` string and the 16 random bytes
drawn by `uuid.uuid4()`. -/
def deriveResourceId (audio_file_path : String) ( file_prefix : String)
    (uuidBytes : List Nat) : String :=
  let file_base_name := basename audio_file_path
  let file_name := replaceSpaces (splitext file_base_name).1
  let extension := (splitext file_base_name).2
  let unique_id := uuid4Str uuidBytes
  let unique_id_prefix := sliceLast2 unique_id
  file_prefix ++ "/" ++ unique_id_prefix ++ "/" ++ file_name ++ "_" ++
    unique_id ++ extension

/-- Model of `CloudStorageUploader.upload_obj(audio_file_path, metadata)`, with the
entropy of `uuid.uuid4()` and the outcomes of the external operations as
parameters. Returns the raised exception or the returned dictionary,
together with the ordered trace of external events performed. -/
def Uploader.upload_obj (u : Uploader) (env : Env) (uuidBytes : List Nat)
    (audio_file_path : String) (metadata : Meta) :
    Except Err Meta × List Ev :=
  let file_base_name := basename audio_file_path
  match metadata.lookup "file_prefix" with
  | none => (.error (.keyError "file_prefix"), [])
  | some fp =>
    let resource_id := deriveResourceId audio_file_path fp.fmt uuidBytes
    let tr1 := [Ev.connect u.api_key u.api_key_secret u.host]
    if env.connectOk = false then (.error (.uploadError .connect), tr1)
    else
    let tr2 := tr1 ++ [Ev.getBucket u.bucket]
    if env.getBucketOk = false then
      (.error (.uploadError .getBucket), tr2)
    else
    let tr3 := tr2 ++ [Ev.putObject resource_id file_base_name audio_file_path]
    if env.putOk = false then (.error (.uploadError .putObject), tr3)
    else
    let tr4 := tr3 ++ [Ev.getSize audio_file_path]
    match env.size with
    | none => (.error (.osError "getsize"), tr4)
    | some sz =>
      let md1 := metadata.set "filesize" (.n sz)
      let tr5 := tr4 ++ [Ev.remove audio_file_path]
      let tr6 :=
        if env.removeOk then tr5
        else tr5 ++ [Ev.logInfo
          ("Could not remove " ++ audio_file_path ++ " from organize directory")]
      let md2 := md1.set "filename" (.s file_base_name)
      let md3 := md2.set "resource_id" (.s resource_id)
      let md4 := md3.set "storage_backend" (.s u.storage_backend)
      (.ok md4, tr6)

/-- Reading back one byte from its two hexadecimal digits. -/
def hexVal (c : Char) : Nat :=
  if c ≤ '9' then c.toNat - 48 else c.toNat - 87

/-- Reading back a byte sequence from its hexadecimal rendering. -/
def unhexPairs : List Char → List Nat
  | a :: b :: rest => (16 * hexVal a + hexVal b) :: unhexPairs rest
  | _ => []

/-- The bytes of a canonical UUID string: strip the hyphens and read the
hexadecimal digits back pairwise. -/
def uuidBytesOf (s : String) : List Nat :=
  unhexPairs (s.data.filter (fun c => c != '-'))

theorem data_append (a b : String) : (a ++ b).data = a.data ++ b.data := rfl

theorem string_eq_of_data_eq (a b : String) (h : a.data = b.data) : a = b :=
  congrArg String.mk h

theorem hexVal_hexDigit_fin : ∀ i : Fin 16, hexVal (hexDigit i.val) = i.val := by
  decide

theorem hexDigit_fin_ne : ∀ i : Fin 16,
    hexDigit i.val ≠ '-' ∧ hexDigit i.val ≠ ' ' := by decide

theorem bytesHex_chars {c : Char} : ∀ {l : List Nat}, c ∈ bytesHex l →
    ∃ i : Fin 16, c = hexDigit i.val := by
  intro l hl
  induction l with
  | nil => simp [bytesHex] at hl
  | cons b rest ih =>
    simp only [bytesHex, byteHex, List.mem_append, List.mem_cons,
      List.not_mem_nil, or_false] at hl
    rcases hl with (h | h) | h
    · exact ⟨⟨b / 16 % 16, Nat.mod_lt _ (by norm_num)⟩, h⟩
    · exact ⟨⟨b % 16, Nat.mod_lt _ (by norm_num)⟩, h⟩
    · exact ih h

theorem bytesHex_ne_dash {c : Char} {l : List Nat} (h : c ∈ bytesHex l) :
    c ≠ '-' := by
  obtain ⟨i, rfl⟩ := bytesHex_chars h
  exact (hexDigit_fin_ne i).1

theorem bytesHex_ne_space {c : Char} {l : List Nat} (h : c ∈ bytesHex l) :
    c ≠ ' ' := by
  obtain ⟨i, rfl⟩ := bytesHex_chars h
  exact (hexDigit_fin_ne i).2

theorem space_not_mem_uuid (bs : List Nat) : ' ' ∉ (uuid4Str bs).data := by
  intro h
  simp only [uuid4Str, List.mem_append, List.mem_cons] at h
  rcases h with h | h | h | h | h | h | h | h | h <;>
    first
      | exact bytesHex_ne_space h rfl
      | simp_all

theorem space_not_mem_replaceSpaces (s : String) :
    ' ' ∉ (replaceSpaces s).data := by
  intro h
  simp only [replaceSpaces, List.mem_map] at h
  obtain ⟨c, _, hc⟩ := h
  by_cases h' : c = ' ' <;> simp [h'] at hc

theorem bytesHex_length (l : List Nat) : (bytesHex l).length = 2 * l.length := by
  induction l with
  | nil => rfl
  | cons b rest ih =>
    simp only [bytesHex, byteHex, List.length_append, List.length_cons,
      List.length_nil, ih, List.length_nil]
    omega

theorem uuid4Str_length {bs : List Nat} (h : bs.length = 16) :
    (uuid4Str bs).data.length = 36 := by
  simp [uuid4Str, List.length_append, bytesHex_length, List.length_take,
    List.length_drop, h]

theorem bytesHex_append (l₁ l₂ : List Nat) :
    bytesHex (l₁ ++ l₂) = bytesHex l₁ ++ bytesHex l₂ := by
  induction l₁ with
  | nil => rfl
  | cons b rest ih => simp [bytesHex, ih]

theorem unhexPairs_byteHex_append {b : Nat} (hb : b < 256) (l : List Char) :
    unhexPairs (byteHex b ++ l) = b :: unhexPairs l := by
  have hb16 : b / 16 < 16 := (Nat.div_lt_iff_lt_mul (by norm_num)).mpr hb
  have h1 : b / 16 % 16 = b / 16 := Nat.mod_eq_of_lt hb16
  have e1 : hexVal (hexDigit (b / 16)) = b / 16 :=
    hexVal_hexDigit_fin ⟨b / 16, hb16⟩
  have e2 : hexVal (hexDigit (b % 16)) = b % 16 :=
    hexVal_hexDigit_fin ⟨b % 16, Nat.mod_lt _ (by norm_num)⟩
  simp only [byteHex, h1, List.cons_append, List.nil_append, unhexPairs, e1, e2]
  rw [Nat.div_add_mod]
  rfl

theorem unhexPairs_bytesHex {l : List Nat} (h : ∀ b ∈ l, b < 256) :
    unhexPairs (bytesHex l) = l := by
  induction l with
  | nil => rfl
  | cons b rest ih =>
    rw [bytesHex, unhexPairs_byteHex_append (h b (by simp))]
    rw [ih (fun x hx => h x (by simp [hx]))]

theorem filter_bytesHex (l : List Nat) :
    (bytesHex l).filter (fun c => c != '-') = bytesHex l :=
  List.filter_eq_self.mpr (fun c hc => by
    simpa using bytesHex_ne_dash hc)

theorem take_drop_recompose (bs : List Nat) :
    bs.take 4 ++ ((bs.drop 4).take 2 ++ ((bs.drop 6).take 2 ++
      ((bs.drop 8).take 2 ++ bs.drop 10))) = bs := by
  have h10 : bs.drop 10 = (bs.drop 8).drop 2 := by
    rw [List.drop_drop]
  have h8 : (bs.drop 8).take 2 ++ bs.drop 10 = bs.drop 8 := by
    rw [h10, List.take_append_drop]
  have hd8 : bs.drop 8 = (bs.drop 6).drop 2 := by
    rw [List.drop_drop]
  have h6 : (bs.drop 6).take 2 ++ bs.drop 8 = bs.drop 6 := by
    rw [hd8, List.take_append_drop]
  have hd6 : bs.drop 6 = (bs.drop 4).drop 2 := by
    rw [List.drop_drop]
  have h4 : (bs.drop 4).take 2 ++ bs.drop 6 = bs.drop 4 := by
    rw [hd6, List.take_append_drop]
  rw [h8, h6, h4, List.take_append_drop]

theorem uuidBytesOf_uuid4Str {bs : List Nat} (h : ∀ b ∈ bs, b < 256) :
    uuidBytesOf (uuid4Str bs) = bs := by
  have hfilter : ((uuid4Str bs).data.filter (fun c => c != '-')) =
      bytesHex bs := by
    simp only [uuid4Str]
    rw [show (bytesHex (bs.take 4) ++ '-' ::
        (bytesHex ((bs.drop 4).take 2) ++ '-' ::
          (bytesHex ((bs.drop 6).take 2) ++ '-' ::
            (bytesHex ((bs.drop 8).take 2) ++ '-' :: bytesHex (bs.drop 10))))) =
      (bytesHex (bs.take 4) ++ ['-'] ++
        (bytesHex ((bs.drop 4).take 2) ++ ['-'] ++
          (bytesHex ((bs.drop 6).take 2) ++ ['-'] ++
            (bytesHex ((bs.drop 8).take 2) ++ ['-'] ++
              bytesHex (bs.drop 10))))) from by simp]
    simp only [List.filter_append, filter_bytesHex]
    have hdash : (['-'] : List Char).filter (fun c => c != '-') = [] := rfl
    rw [hdash]
    simp only [List.nil_append, List.append_nil]
    rw [← bytesHex_append, ← bytesHex_append, ← bytesHex_append,
      ← bytesHex_append]
    rw [show bs.take 4 ++ ((bs.drop 4).take 2 ++ ((bs.drop 6).take 2 ++
      ((bs.drop 8).take 2 ++ bs.drop 10))) = bs from take_drop_recompose bs]
  rw [uuidBytesOf, hfilter, unhexPairs_bytesHex h]

theorem uuid4Str_inj {bs₁ bs₂ : List Nat} (h₁ : ∀ b ∈ bs₁, b < 256)
    (h₂ : ∀ b ∈ bs₂, b < 256) (h : uuid4Str bs₁ = uuid4Str bs₂) :
    bs₁ = bs₂ := by
  rw [← uuidBytesOf_uuid4Str h₁, ← uuidBytesOf_uuid4Str h₂, h]

theorem deriveResourceId_eq (p fp : String) (bs : List Nat) :
    deriveResourceId p fp bs =
      fp ++ "/" ++ sliceLast2 (uuid4Str bs) ++ "/" ++
        replaceSpaces (splitext (basename p)).1 ++ "_" ++ uuid4Str bs ++
        (splitext (basename p)).2 := rfl

theorem deriveResourceId_data (p fp : String) (bs : List Nat) :
    (deriveResourceId p fp bs).data =
      fp.data ++ '/' :: ((sliceLast2 (uuid4Str bs)).data ++ '/' ::
        ((replaceSpaces (splitext (basename p)).1).data ++ '_' ::
          ((uuid4Str bs).data ++ ((splitext (basename p)).2).data))) := by
  rw [deriveResourceId_eq]
  simp only [data_append]
  simp [List.append_assoc]

theorem sliceLast2_length {s : String} (h : s.data.length = 36) :
    (sliceLast2 s).data.length = 2 := by
  simp [sliceLast2, List.length_drop, h]

theorem sliceLast2_suffix (s : String) :
    ∃ l, s.data = l ++ (sliceLast2 s).data := by
  exact ⟨s.data.take (s.data.length - 2),
    (List.take_append_drop _ s.data).symm⟩

theorem sliceLast2_mem {c : Char} {s : String}
    (h : c ∈ (sliceLast2 s).data) : c ∈ s.data := by
  simp only [sliceLast2] at h
  exact List.mem_of_mem_drop h

theorem uuid_extract (p fp : String) (bs : List Nat) (h : bs.length = 16) :
    ((deriveResourceId p fp bs).data.drop
      (fp.data.length + 1 + 2 + 1 +
        (replaceSpaces (splitext (basename p)).1).data.length + 1)).take 36 =
      (uuid4Str bs).data := by
  have hu : (uuid4Str bs).data.length = 36 := uuid4Str_length h
  have hs : (sliceLast2 (uuid4Str bs)).data.length = 2 := sliceLast2_length hu
  have hsplit : (deriveResourceId p fp bs).data =
      (fp.data ++ '/' :: ((sliceLast2 (uuid4Str bs)).data ++ '/' ::
        ((replaceSpaces (splitext (basename p)).1).data ++ ['_']))) ++
      ((uuid4Str bs).data ++ ((splitext (basename p)).2).data) := by
    rw [deriveResourceId_data]
    simp
  have hlen : (fp.data ++ '/' :: ((sliceLast2 (uuid4Str bs)).data ++ '/' ::
        ((replaceSpaces (splitext (basename p)).1).data ++ ['_']))).length =
      fp.data.length + 1 + 2 + 1 +
        (replaceSpaces (splitext (basename p)).1).data.length + 1 := by
    simp [List.length_append, hs]
    omega
  rw [hsplit, ← hlen, List.drop_left, ← hu, List.take_left]

theorem configGet_ok {c : Config} {s o v : String}
    (h : configGet c s o = .ok v) : c s o = some v := by
  unfold configGet at h
  cases hc : c s o with
  | none => rw [hc] at h; cases h
  | some w => rw [hc] at h; cases h; rfl

theorem mkUploader_selector {c : Config} {u : Uploader}
    (h : mkUploader c = .ok u) :
    c "current_backend" "storage_backend" = some u.storage_backend := by
  unfold mkUploader at h
  cases hc : configGet c "current_backend" "storage_backend" with
  | error e => rw [hc] at h; cases h
  | ok sb =>
    rw [hc] at h
    dsimp only at h
    have hsel := configGet_ok hc
    by_cases hf : sb = STORAGE_BACKEND_FILE
    · rw [if_pos hf] at h
      cases h
      exact hsel
    · rw [if_neg hf] at h
      cases h1 : configGet c sb "host" with
      | error e => rw [h1] at h; cases h
      | ok hv =>
        rw [h1] at h
        cases h2 : configGet c sb "bucket" with
        | error e => rw [h2] at h; cases h
        | ok bv =>
          rw [h2] at h
          cases h3 : configGet c sb "api_key" with
          | error e => rw [h3] at h; cases h
          | ok kv =>
            rw [h3] at h
            cases h4 : configGet c sb "api_key_secret" with
            | error e => rw [h4] at h; cases h
            | ok sv =>
              rw [h4] at h
              cases h
              exact hsel

theorem upload_obj_keyErr {u : Uploader} {env : Env} {bs : List Nat}
    {p : String} {md : Meta} (h : md.lookup "file_prefix" = none) :
    u.upload_obj env bs p md = (.error (.keyError "file_prefix"), []) := by
  unfold Uploader.upload_obj
  rw [h]

theorem upload_obj_connect_fail {u : Uploader} {env : Env} {bs : List Nat}
    {p : String} {md : Meta} {fp : Val}
    (hfp : md.lookup "file_prefix" = some fp) (hc : env.connectOk = false) :
    u.upload_obj env bs p md = (.error (.uploadError .connect),
      [Ev.connect u.api_key u.api_key_secret u.host]) := by
  unfold Uploader.upload_obj
  rw [hfp]
  simp [hc]

theorem upload_obj_bucket_fail {u : Uploader} {env : Env} {bs : List Nat}
    {p : String} {md : Meta} {fp : Val}
    (hfp : md.lookup "file_prefix" = some fp) (hc : env.connectOk = true)
    (hg : env.getBucketOk = false) :
    u.upload_obj env bs p md = (.error (.uploadError .getBucket),
      [Ev.connect u.api_key u.api_key_secret u.host,
       Ev.getBucket u.bucket]) := by
  unfold Uploader.upload_obj
  rw [hfp]
  simp [hc, hg]

theorem upload_obj_put_fail {u : Uploader} {env : Env} {bs : List Nat}
    {p : String} {md : Meta} {fp : Val}
    (hfp : md.lookup "file_prefix" = some fp) (hc : env.connectOk = true)
    (hg : env.getBucketOk = true) (hp : env.putOk = false) :
    u.upload_obj env bs p md = (.error (.uploadError .putObject),
      [Ev.connect u.api_key u.api_key_secret u.host,
       Ev.getBucket u.bucket,
       Ev.putObject (deriveResourceId p fp.fmt bs) (basename p) p]) := by
  unfold Uploader.upload_obj
  rw [hfp]
  simp [hc, hg, hp]

theorem upload_obj_ok_shape {u : Uploader} {env : Env} {bs : List Nat}
    {p : String} {md : Meta} {fp : Val} {sz : Nat}
    (hfp : md.lookup "file_prefix" = some fp) (hc : env.connectOk = true)
    (hg : env.getBucketOk = true) (hp : env.putOk = true)
    (hs : env.size = some sz) :
    u.upload_obj env bs p md =
      (.ok ((((md.set "filesize" (.n sz)).set "filename"
          (.s (basename p))).set "resource_id"
          (.s (deriveResourceId p fp.fmt bs))).set "storage_backend"
          (.s u.storage_backend)),
        [Ev.connect u.api_key u.api_key_secret u.host,
         Ev.getBucket u.bucket,
         Ev.putObject (deriveResourceId p fp.fmt bs) (basename p) p,
         Ev.getSize p, Ev.remove p] ++
        (if env.removeOk then []
         else [Ev.logInfo
           ("Could not remove " ++ p ++ " from organize directory")])) := by
  unfold Uploader.upload_obj
  rw [hfp]
  simp only [hc, hg, hp, hs]
  cases hr : env.removeOk <;> simp [hr]

theorem upload_obj_ok_inv {u : Uploader} {env : Env} {bs : List Nat}
    {p : String} {md md' : Meta} {tr : List Ev}
    (h : u.upload_obj env bs p md = (.ok md', tr)) :
    ∃ fp sz, md.lookup "file_prefix" = some fp ∧ env.size = some sz ∧
      md' = (((md.set "filesize" (.n sz)).set "filename"
          (.s (basename p))).set "resource_id"
          (.s (deriveResourceId p fp.fmt bs))).set "storage_backend"
          (.s u.storage_backend) := by
  unfold Uploader.upload_obj at h
  cases hfp : md.lookup "file_prefix" with
  | none => rw [hfp] at h; simp at h
  | some fp =>
    rw [hfp] at h
    cases hc : env.connectOk with
    | false => simp [hc] at h
    | true =>
      cases hg : env.getBucketOk with
      | false => simp [hc, hg] at h
      | true =>
        cases hp : env.putOk with
        | false => simp [hc, hg, hp] at h
        | true =>
          cases hs : env.size with
          | none => simp [hc, hg, hp, hs] at h
          | some sz =>
            refine ⟨fp, sz, rfl, rfl, ?_⟩
            simp only [hc, hg, hp, hs] at h
            simp at h
            exact h.1.symm

theorem Meta.lookup_set_self (m : Meta) (k : String) (v : Val) :
    (m.set k v).lookup k = some v := by
  induction m with
  | nil => simp [Meta.set, Meta.lookup]
  | cons p rest ih =>
    obtain ⟨k', v'⟩ := p
    by_cases h : k' = k <;> simp [Meta.set, Meta.lookup, h, ih]

theorem Meta.lookup_set_ne (m : Meta) {k k' : String} (v : Val)
    (h : k' ≠ k) : (m.set k' v).lookup k = m.lookup k := by
  induction m with
  | nil => simp [Meta.set, Meta.lookup, h]
  | cons p rest ih =>
    obtain ⟨k₀, v₀⟩ := p
    by_cases h0 : k₀ = k'
    · subst h0
      simp [Meta.set, Meta.lookup, h]
    · by_cases h1 : k₀ = k
      · subst h1
        simp [Meta.set, Meta.lookup, h0]
      · simp [Meta.set, Meta.lookup, h0, h1, ih]

theorem space_not_mem_rid (p fp : String) (bs : List Nat)
    (hfp : ' ' ∉ fp.data)
    (hext : ' ' ∉ ((splitext (basename p)).2).data) :
    ' ' ∉ (deriveResourceId p fp bs).data := by
  rw [deriveResourceId_data]
  intro h
  simp only [List.mem_append, List.mem_cons] at h
  rcases h with h | h | h | h | h | h | h | h
  · exact hfp h
  · exact absurd h (by decide)
  · exact space_not_mem_uuid bs (sliceLast2_mem h)
  · exact absurd h (by decide)
  · exact space_not_mem_replaceSpaces _ h
  · exact absurd h (by decide)
  · exact space_not_mem_uuid bs h
  · exact hext h

/-- C2 (amended): for every sourcePath and file_prefix in which the
caller-supplied file_prefix and the extension of the source filename are
free of space characters, the resource id derived by the namer contains no
space character anywhere and ends with the original extension unchanged. -/
theorem C2_noSpace_and_extensionSuffix (p fp : String) (bs : List Nat)
    (hfp : ' ' ∉ fp.data)
    (hext : ' ' ∉ ((splitext (basename p)).2).data) :
    ' ' ∉ (deriveResourceId p fp bs).data ∧
    ∃ pre, deriveResourceId p fp bs = pre ++ (splitext (basename p)).2 :=
  ⟨space_not_mem_rid p fp bs hfp hext,
    ⟨fp ++ "/" ++ sliceLast2 (uuid4Str bs) ++ "/" ++
      replaceSpaces (splitext (basename p)).1 ++ "_" ++ uuid4Str bs, rfl⟩⟩

theorem C2_witness :
    (' ' ∉ ("stations/42" : String).data) ∧
    (' ' ∉ ((splitext (basename "/srv/My Song.mp3")).2).data) ∧
    (' ' ∉ (deriveResourceId "/srv/My Song.mp3" "stations/42"
        (List.replicate 16 171)).data ∧
      ∃ pre, deriveResourceId "/srv/My Song.mp3" "stations/42"
          (List.replicate 16 171) =
        pre ++ (splitext (basename "/srv/My Song.mp3")).2) :=
  ⟨by decide, by decide,
    C2_noSpace_and_extensionSuffix "/srv/My Song.mp3" "stations/42"
      (List.replicate 16 171) (by decide) (by decide)⟩

/-- C2 (counterexample): with a space in the caller-supplied file_prefix the
derived resource id does contain a space character, refuting the claim that
for every input the resource id contains no space anywhere. -/
theorem C2_counterexample :
    ' ' ∈ (deriveResourceId "/srv/song.mp3" "a b"
      (List.replicate 16 0)).data := by decide

/-- C10: space-to-hyphen sanitization is applied only to the filename stem;
the sanitized stem embedded in the resource id has no space, while space
characters in the extension or in the caller-supplied file_prefix are
carried into the resource id unchanged (in particular they reappear in it). -/
theorem C10_sanitizationOnlyStem (p fp : String) (bs : List Nat) :
    deriveResourceId p fp bs =
      fp ++ "/" ++ sliceLast2 (uuid4Str bs) ++ "/" ++
        replaceSpaces (splitext (basename p)).1 ++ "_" ++ uuid4Str bs ++
        (splitext (basename p)).2 ∧
    ' ' ∉ (replaceSpaces (splitext (basename p)).1).data ∧
    (' ' ∈ fp.data → ' ' ∈ (deriveResourceId p fp bs).data) ∧
    (' ' ∈ ((splitext (basename p)).2).data →
      ' ' ∈ (deriveResourceId p fp bs).data) := by
  refine ⟨rfl, space_not_mem_replaceSpaces _, ?_, ?_⟩ <;>
    · intro h
      rw [deriveResourceId_data]
      simp only [List.mem_append, List.mem_cons]
      tauto

theorem C10_witness :
    ' ' ∈ (deriveResourceId "/srv/x.m p3" "a b" (List.replicate 16 7)).data :=
  (C10_sanitizationOnlyStem "/srv/x.m p3" "a b"
    (List.replicate 16 7)).2.2.1 (by decide)

/-- C5: the resource id has exactly the composed form
file_prefix / suffix / sanitizedStem _ uniqueToken extension, and the
sharding suffix is exactly two characters long and equals the last two
characters of the unique token embedded in the same resource id. -/
theorem C5_shape_and_shardingSuffix (p fp : String) (bs : List Nat)
    (h : bs.length = 16) :
    deriveResourceId p fp bs =
      fp ++ "/" ++ sliceLast2 (uuid4Str bs) ++ "/" ++
        replaceSpaces (splitext (basename p)).1 ++ "_" ++ uuid4Str bs ++
        (splitext (basename p)).2 ∧
    (sliceLast2 (uuid4Str bs)).data.length = 2 ∧
    ∃ l, (uuid4Str bs).data = l ++ (sliceLast2 (uuid4Str bs)).data :=
  ⟨rfl, sliceLast2_length (uuid4Str_length h), sliceLast2_suffix _⟩

theorem C5_witness :
    deriveResourceId "/srv/My Song.mp3" "stations/42" (List.replicate 16 0) =
      "stations/42" ++ "/" ++ sliceLast2 (uuid4Str (List.replicate 16 0)) ++
        "/" ++ replaceSpaces (splitext (basename "/srv/My Song.mp3")).1 ++
        "_" ++ uuid4Str (List.replicate 16 0) ++
        (splitext (basename "/srv/My Song.mp3")).2 ∧
    (sliceLast2 (uuid4Str (List.replicate 16 0))).data.length = 2 ∧
    ∃ l, (uuid4Str (List.replicate 16 0)).data =
      l ++ (sliceLast2 (uuid4Str (List.replicate 16 0))).data :=
  C5_shape_and_shardingSuffix "/srv/My Song.mp3" "stations/42"
    (List.replicate 16 0) (by decide)

/-- C6: two calls of the namer with identical sourcePath and file_prefix but
distinct freshly generated 128-bit tokens (distinct 16-byte strings) derive
different resource ids. -/
theorem C6_distinctTokens_distinctIds (p fp : String) (bs₁ bs₂ : List Nat)
    (h₁ : bs₁.length = 16) (h₂ : bs₂.length = 16)
    (hb₁ : ∀ b ∈ bs₁, b < 256) (hb₂ : ∀ b ∈ bs₂, b < 256)
    (hne : bs₁ ≠ bs₂) :
    deriveResourceId p fp bs₁ ≠ deriveResourceId p fp bs₂ := by
  intro heq
  apply hne
  have hd : (deriveResourceId p fp bs₁).data =
      (deriveResourceId p fp bs₂).data := by rw [heq]
  have e1 := uuid_extract p fp bs₁ h₁
  have e2 := uuid_extract p fp bs₂ h₂
  rw [hd] at e1
  exact uuid4Str_inj hb₁ hb₂ (string_eq_of_data_eq _ _ (e1.symm.trans e2))

theorem C6_witness :
    deriveResourceId "/srv/a.mp3" "st" (List.replicate 16 0) ≠
      deriveResourceId "/srv/a.mp3" "st" (1 :: List.replicate 15 0) :=
  C6_distinctTokens_distinctIds "/srv/a.mp3" "st" (List.replicate 16 0)
    (1 :: List.replicate 15 0) (by decide) (by decide)
    (by decide) (by decide) (by decide)

/-- C7: for every resolved configuration, `enabled()` returns false exactly
when the resolved backend selector equals the reserved local value `"file"`,
and true otherwise; `enabled` is a pure function of the constructed state,
so the query has no side effect on the configuration state. -/
theorem C7_enabled_iff_fileBackend (c : Config) (u : Uploader)
    (h : mkUploader c = .ok u) :
    c "current_backend" "storage_backend" = some u.storage_backend ∧
    (u.enabled = false ↔ u.storage_backend = "file") ∧
    (u.enabled = true ↔ u.storage_backend ≠ "file") := by
  refine ⟨mkUploader_selector h, ?_, ?_⟩ <;>
    · unfold Uploader.enabled
      by_cases hf : u.storage_backend = "file" <;> simp [hf]

/-- A configuration holding only the backend selector, set to `"file"`. -/
def cfgFileOnly : Config := fun sect opt =>
  if sect = "current_backend" ∧ opt = "storage_backend" then some "file"
  else none

theorem C7_witness :
    cfgFileOnly "current_backend" "storage_backend" =
      some (Uploader.mk "file" "" "" "" "").storage_backend ∧
    ((Uploader.mk "file" "" "" "" "").enabled = false ↔
      (Uploader.mk "file" "" "" "" "").storage_backend = "file") ∧
    ((Uploader.mk "file" "" "" "" "").enabled = true ↔
      (Uploader.mk "file" "" "" "" "").storage_backend ≠ "file") :=
  C7_enabled_iff_fileBackend cfgFileOnly (Uploader.mk "file" "" "" "" "") rfl

/-- C3: when the metadata dictionary has no `file_prefix` key, `upload_obj`
raises the key error (the spec's `InvalidRequestError`) and the trace of
external events is empty: no store connection, no container lookup, no
write, and no filesystem operation happened. -/
theorem C3_missingFilePrefix_failsFirst (u : Uploader) (env : Env)
    (bs : List Nat) (p : String) (md : Meta)
    (h : md.lookup "file_prefix" = none) :
    u.upload_obj env bs p md = (.error (.keyError "file_prefix"), []) :=
  upload_obj_keyErr h

theorem C3_witness :
    ([("genre", Val.s "rock")] : Meta).lookup "file_prefix" = none ∧
    (Uploader.mk "amazon_S3" "s3.example" "airtime" "AK" "SK").upload_obj
        ⟨true, true, true, some 10, true⟩ (List.replicate 16 0)
        "/srv/a.mp3" [("genre", Val.s "rock")] =
      (.error (.keyError "file_prefix"), []) :=
  ⟨rfl, C3_missingFilePrefix_failsFirst
    (Uploader.mk "amazon_S3" "s3.example" "airtime" "AK" "SK")
    ⟨true, true, true, some 10, true⟩ (List.replicate 16 0)
    "/srv/a.mp3" [("genre", Val.s "rock")] rfl⟩

/-- C1 (counterexample): with the configured backend equal to the reserved
local value `"file"`, a call to `upload_obj` still performs the store
connection and container lookup and still removes the source file, refuting
the claim that no network call is made and the source is never deleted. -/
theorem C1_counterexample :
    mkUploader cfgFileOnly = .ok (Uploader.mk "file" "" "" "" "") ∧
    Ev.connect "" "" "" ∈
      ((Uploader.mk "file" "" "" "" "").upload_obj
        ⟨true, true, true, some 10, true⟩ (List.replicate 16 171)
        "/srv/a.mp3" [("file_prefix", Val.s "st")]).2 ∧
    Ev.getBucket "" ∈
      ((Uploader.mk "file" "" "" "" "").upload_obj
        ⟨true, true, true, some 10, true⟩ (List.replicate 16 171)
        "/srv/a.mp3" [("file_prefix", Val.s "st")]).2 ∧
    Ev.remove "/srv/a.mp3" ∈
      ((Uploader.mk "file" "" "" "" "").upload_obj
        ⟨true, true, true, some 10, true⟩ (List.replicate 16 171)
        "/srv/a.mp3" [("file_prefix", Val.s "st")]).2 := by
  refine ⟨rfl, ?_, ?_, ?_⟩ <;> decide

/-- C1 (amended): with the configured backend equal to the reserved local
value `"file"`, `upload_obj` behaves exactly as for a remote backend: it
still performs the store connection, container lookup and object write
(with the empty connection parameters) and still removes the source file;
the returned metadata does contain a well-formed `resource_id` key. -/
theorem C1_fileBackend_uploadsAnyway (c : Config) (u : Uploader) (env : Env)
    (bs : List Nat) (p : String) (md : Meta) (fp : Val) (sz : Nat)
    (_hu : mkUploader c = .ok u) (_hb : u.storage_backend = "file")
    (hfp : md.lookup "file_prefix" = some fp)
    (hc : env.connectOk = true) (hg : env.getBucketOk = true)
    (hp : env.putOk = true) (hs : env.size = some sz) :
    (∃ md', (u.upload_obj env bs p md).1 = .ok md' ∧
      md'.lookup "resource_id" =
        some (.s (deriveResourceId p fp.fmt bs))) ∧
    Ev.connect u.api_key u.api_key_secret u.host ∈
      (u.upload_obj env bs p md).2 ∧
    Ev.getBucket u.bucket ∈ (u.upload_obj env bs p md).2 ∧
    Ev.remove p ∈ (u.upload_obj env bs p md).2 := by
  have hne : ("storage_backend" : String) ≠ "resource_id" := by decide
  rw [upload_obj_ok_shape hfp hc hg hp hs]
  refine ⟨⟨_, rfl, ?_⟩, ?_, ?_, ?_⟩
  · rw [Meta.lookup_set_ne _ _ hne, Meta.lookup_set_self]
  · simp
  · simp
  · simp

theorem C1_amended_witness :
    (∃ md', ((Uploader.mk "file" "" "" "" "").upload_obj
        ⟨true, true, true, some 10, true⟩ (List.replicate 16 171)
        "/srv/a.mp3" [("file_prefix", Val.s "st")]).1 = .ok md' ∧
      md'.lookup "resource_id" = some (.s (deriveResourceId "/srv/a.mp3"
        (Val.s "st").fmt (List.replicate 16 171)))) ∧
    Ev.connect "" "" "" ∈ ((Uploader.mk "file" "" "" "" "").upload_obj
        ⟨true, true, true, some 10, true⟩ (List.replicate 16 171)
        "/srv/a.mp3" [("file_prefix", Val.s "st")]).2 ∧
    Ev.getBucket "" ∈ ((Uploader.mk "file" "" "" "" "").upload_obj
        ⟨true, true, true, some 10, true⟩ (List.replicate 16 171)
        "/srv/a.mp3" [("file_prefix", Val.s "st")]).2 ∧
    Ev.remove "/srv/a.mp3" ∈ ((Uploader.mk "file" "" "" "" "").upload_obj
        ⟨true, true, true, some 10, true⟩ (List.replicate 16 171)
        "/srv/a.mp3" [("file_prefix", Val.s "st")]).2 :=
  C1_fileBackend_uploadsAnyway cfgFileOnly (Uploader.mk "file" "" "" "" "")
    ⟨true, true, true, some 10, true⟩ (List.replicate 16 171) "/srv/a.mp3"
    [("file_prefix", Val.s "st")] (Val.s "st") 10 rfl rfl rfl rfl rfl rfl rfl

/-- C4: with a remote backend, when the store connection, the container
lookup or the object write fails, `upload_obj` propagates the store error
(the spec's `UploadError`, carrying the failed stage as underlying cause),
the source file is never removed, and no metadata dictionary is returned. -/
theorem C4_remoteStoreFailure (u : Uploader) (env : Env) (bs : List Nat)
    (p : String) (md : Meta) (fp : Val)
    (_hb : u.storage_backend ≠ "file")
    (hfp : md.lookup "file_prefix" = some fp)
    (hfail : env.connectOk = false ∨ env.getBucketOk = false ∨
      env.putOk = false) :
    (∃ cause, (u.upload_obj env bs p md).1 = .error (.uploadError cause)) ∧
    Ev.remove p ∉ (u.upload_obj env bs p md).2 ∧
    ∀ md', (u.upload_obj env bs p md).1 ≠ .ok md' := by
  cases hc : env.connectOk with
  | false =>
    rw [upload_obj_connect_fail hfp hc]
    exact ⟨⟨.connect, rfl⟩, by simp, by simp⟩
  | true =>
    cases hg : env.getBucketOk with
    | false =>
      rw [upload_obj_bucket_fail hfp hc hg]
      exact ⟨⟨.getBucket, rfl⟩, by simp, by simp⟩
    | true =>
      cases hp : env.putOk with
      | false =>
        rw [upload_obj_put_fail hfp hc hg hp]
        exact ⟨⟨.putObject, rfl⟩, by simp, by simp⟩
      | true =>
        exfalso
        rcases hfail with h | h | h <;> simp_all

theorem C4_witness :
    (∃ cause, ((Uploader.mk "amazon_S3" "s3.example" "airtime" "AK"
        "SK").upload_obj ⟨true, true, false, some 10, true⟩
        (List.replicate 16 0) "/srv/a.mp3"
        [("file_prefix", Val.s "st")]).1 = .error (.uploadError cause)) ∧
    Ev.remove "/srv/a.mp3" ∉
      ((Uploader.mk "amazon_S3" "s3.example" "airtime" "AK"
        "SK").upload_obj ⟨true, true, false, some 10, true⟩
        (List.replicate 16 0) "/srv/a.mp3"
        [("file_prefix", Val.s "st")]).2 ∧
    ∀ md', ((Uploader.mk "amazon_S3" "s3.example" "airtime" "AK"
        "SK").upload_obj ⟨true, true, false, some 10, true⟩
        (List.replicate 16 0) "/srv/a.mp3"
        [("file_prefix", Val.s "st")]).1 ≠ .ok md' :=
  C4_remoteStoreFailure (Uploader.mk "amazon_S3" "s3.example" "airtime"
    "AK" "SK") ⟨true, true, false, some 10, true⟩ (List.replicate 16 0)
    "/srv/a.mp3" [("file_prefix", Val.s "st")] (Val.s "st")
    (by decide) rfl (Or.inr (Or.inr rfl))

/-- C8: when the object write succeeds but the deletion of the local source
file fails, the failure is swallowed (the warning is logged, nothing is
raised) and the call still returns the metadata dictionary augmented with
filesize, filename, resource_id and storage_backend. -/
theorem C8_removeFailureSwallowed (u : Uploader) (env : Env) (bs : List Nat)
    (p : String) (md : Meta) (fp : Val) (sz : Nat)
    (hfp : md.lookup "file_prefix" = some fp)
    (hc : env.connectOk = true) (hg : env.getBucketOk = true)
    (hp : env.putOk = true) (hs : env.size = some sz)
    (hr : env.removeOk = false) :
    (∃ md', (u.upload_obj env bs p md).1 = .ok md' ∧
      md'.lookup "filesize" = some (.n sz) ∧
      md'.lookup "filename" = some (.s (basename p)) ∧
      md'.lookup "resource_id" =
        some (.s (deriveResourceId p fp.fmt bs)) ∧
      md'.lookup "storage_backend" = some (.s u.storage_backend)) ∧
    Ev.logInfo ("Could not remove " ++ p ++ " from organize directory") ∈
      (u.upload_obj env bs p md).2 := by
  have h1 : ("storage_backend" : String) ≠ "filesize" := by decide
  have h2 : ("storage_backend" : String) ≠ "filename" := by decide
  have h3 : ("storage_backend" : String) ≠ "resource_id" := by decide
  have h4 : ("resource_id" : String) ≠ "filesize" := by decide
  have h5 : ("resource_id" : String) ≠ "filename" := by decide
  have h6 : ("filename" : String) ≠ "filesize" := by decide
  rw [upload_obj_ok_shape hfp hc hg hp hs]
  refine ⟨⟨_, rfl, ?_, ?_, ?_, ?_⟩, ?_⟩
  · rw [Meta.lookup_set_ne _ _ h1, Meta.lookup_set_ne _ _ h4,
      Meta.lookup_set_ne _ _ h6, Meta.lookup_set_self]
  · rw [Meta.lookup_set_ne _ _ h2, Meta.lookup_set_ne _ _ h5,
      Meta.lookup_set_self]
  · rw [Meta.lookup_set_ne _ _ h3, Meta.lookup_set_self]
  · rw [Meta.lookup_set_self]
  · simp [hr]

theorem C8_witness :
    (∃ md', ((Uploader.mk "amazon_S3" "s3.example" "airtime" "AK"
        "SK").upload_obj ⟨true, true, true, some 10, false⟩
        (List.replicate 16 0) "/srv/a.mp3"
        [("file_prefix", Val.s "st")]).1 = .ok md' ∧
      md'.lookup "filesize" = some (.n 10) ∧
      md'.lookup "filename" = some (.s (basename "/srv/a.mp3")) ∧
      md'.lookup "resource_id" = some (.s (deriveResourceId "/srv/a.mp3"
        (Val.s "st").fmt (List.replicate 16 0))) ∧
      md'.lookup "storage_backend" = some (.s (Uploader.mk "amazon_S3"
        "s3.example" "airtime" "AK" "SK").storage_backend)) ∧
    Ev.logInfo ("Could not remove " ++ "/srv/a.mp3" ++
        " from organize directory") ∈
      ((Uploader.mk "amazon_S3" "s3.example" "airtime" "AK"
        "SK").upload_obj ⟨true, true, true, some 10, false⟩
        (List.replicate 16 0) "/srv/a.mp3"
        [("file_prefix", Val.s "st")]).2 :=
  C8_removeFailureSwallowed (Uploader.mk "amazon_S3" "s3.example" "airtime"
    "AK" "SK") ⟨true, true, true, some 10, false⟩ (List.replicate 16 0)
    "/srv/a.mp3" [("file_prefix", Val.s "st")] (Val.s "st") 10
    rfl rfl rfl rfl rfl rfl

/-- C9: every successful call returns the caller's metadata dictionary
updated in place on exactly the four keys filesize, filename, resource_id
and storage_backend; every other key keeps its original value. -/
theorem C9_callerKeysPreserved (u : Uploader) (env : Env) (bs : List Nat)
    (p : String) (md md' : Meta) (tr : List Ev)
    (h : u.upload_obj env bs p md = (.ok md', tr)) :
    (∃ (fp : Val) (sz : Nat), md' = (((md.set "filesize" (.n sz)).set
        "filename" (.s (basename p))).set "resource_id"
        (.s (deriveResourceId p fp.fmt bs))).set "storage_backend"
        (.s u.storage_backend)) ∧
    ∀ k, k ≠ "filesize" → k ≠ "filename" → k ≠ "resource_id" →
      k ≠ "storage_backend" → md'.lookup k = md.lookup k := by
  obtain ⟨fp, sz, hfp, hs, rfl⟩ := upload_obj_ok_inv h
  refine ⟨⟨fp, sz, rfl⟩, ?_⟩
  intro k h1 h2 h3 h4
  rw [Meta.lookup_set_ne _ _ (Ne.symm h4), Meta.lookup_set_ne _ _
    (Ne.symm h3), Meta.lookup_set_ne _ _ (Ne.symm h2),
    Meta.lookup_set_ne _ _ (Ne.symm h1)]

theorem C9_witness :
    ∃ md' tr,
      (Uploader.mk "amazon_S3" "s3.example" "airtime" "AK" "SK").upload_obj
          ⟨true, true, true, some 10, true⟩ (List.replicate 16 0)
          "/srv/a.mp3"
          [("file_prefix", Val.s "st"), ("genre", Val.s "rock")] =
        (.ok md', tr) ∧
      md'.lookup "genre" =
        Meta.lookup [("file_prefix", Val.s "st"), ("genre", Val.s "rock")]
          "genre" := by
  refine ⟨_, _, rfl, ?_⟩
  have h := C9_callerKeysPreserved
    (Uploader.mk "amazon_S3" "s3.example" "airtime" "AK" "SK")
    ⟨true, true, true, some 10, true⟩ (List.replicate 16 0) "/srv/a.mp3"
    [("file_prefix", Val.s "st"), ("genre", Val.s "rock")] _ _ rfl
  exact h.2 "genre" (by decide) (by decide) (by decide) (by decide)

end CloudStorage
